import Mathlib

/-!
Shallow embedding of the usb-proxy program (src/usb-proxy.py): the EP0
engine, the SET_CONFIGURATION lifecycle, the descriptor cache serving
logic, hotplug reset handling, and the raw-gadget event fetch.

External effects (ioctl calls on the gadget file descriptor and control
or bulk transfers on the upstream device) are modelled as trace actions;
the outcomes of upstream calls are supplied by an environment record, so
every failure mode of the source is representable as an environment.
-/

namespace UsbProxy

/-- USB direction bit for IN transfers (device to host), from the source constants. -/
def USB_DIR_IN : Nat := 0x80

/-- Mask isolating the type bits (5..6) of bmRequestType. -/
def USB_TYPE_MASK : Nat := 0x60

/-- Standard request type bits. -/
def USB_TYPE_STANDARD : Nat := 0x00

/-- Standard request code GET_STATUS. -/
def USB_REQ_GET_STATUS : Nat := 0x00

/-- Standard request code SET_ADDRESS. -/
def USB_REQ_SET_ADDRESS : Nat := 0x05

/-- Standard request code GET_DESCRIPTOR. -/
def USB_REQ_GET_DESCRIPTOR : Nat := 0x06

/-- Standard request code GET_CONFIGURATION. -/
def USB_REQ_GET_CONFIGURATION : Nat := 0x08

/-- Standard request code SET_CONFIGURATION. -/
def USB_REQ_SET_CONFIGURATION : Nat := 0x09

/-- Descriptor type code for the device descriptor. -/
def USB_DT_DEVICE : Nat := 0x01

/-- Descriptor type code for a configuration descriptor. -/
def USB_DT_CONFIG : Nat := 0x02

/-- Descriptor type code for a string descriptor. -/
def USB_DT_STRING : Nat := 0x03

/-- Raw-gadget event type CONNECT. -/
def USB_RAW_EVENT_CONNECT : Nat := 1

/-- Raw-gadget event type CONTROL. -/
def USB_RAW_EVENT_CONTROL : Nat := 2

/-- Raw-gadget event type RESET. -/
def USB_RAW_EVENT_RESET : Nat := 5

/-- Raw-gadget event type DISCONNECT. -/
def USB_RAW_EVENT_DISCONNECT : Nat := 6

/-- An endpoint of an upstream configuration, as enumerated by pyusb
(bEndpointAddress, bmAttributes, wMaxPacketSize, bInterval). -/
structure EpDesc where
  address : Nat
  attributes : Nat
  maxPacket : Nat
  interval : Nat
deriving DecidableEq

/-- An interface of an upstream configuration: its endpoint list. -/
structure InterfaceDesc where
  endpoints : List EpDesc
deriving DecidableEq

/-- An upstream configuration: its bConfigurationValue and interfaces. -/
structure ConfigDesc where
  bConfigurationValue : Nat
  interfaces : List InterfaceDesc
deriving DecidableEq

/-- The final argument of a pyusb ctrl_transfer call: a maximum length
(IN), a data payload (OUT with data stage), or None (OUT, no data). -/
inductive CtrlArg where
  | len (n : Nat)
  | out (bs : List Nat)
  | nodata
deriving DecidableEq

/-- An externally visible action of the proxy: gadget ioctl calls and
upstream device calls, in program order. -/
inductive Action where
  | ep0Read (n : Nat)
  | ep0Write (bs : List Nat)
  | ep0Stall
  | epEnable (desc : List Nat)
  | configureGadget
  | setConfiguration (v : Nat)
  | controlTransfer (rt rq value index : Nat) (arg : CtrlArg)
  | upstreamReset
  | stopWorkers
deriving DecidableEq

/-- The mutable fields of the USBProxy object that the claims concern. -/
structure ProxyState where
  device_descriptor : Option (List Nat)
  config_descriptors : List (Nat × List Nat)
  string_descriptors : List (Nat × List Nat)
  configured : Bool
  device_configured : Bool
  endpoint_threads : List Nat
  endpoints_running : Bool
  host_connected : Bool
deriving DecidableEq

/-- The environment: outcomes of upstream device calls and downstream
data, so that each failure mode of the source is representable.
A result of none models a raised exception. -/
structure Env where
  set_configuration_ok : Bool
  configure_ok : Bool
  configs : List ConfigDesc
  ctrl_in : Nat → Nat → Nat → Nat → Nat → Option (List Nat)
  ctrl_out : Nat → Nat → Nat → Nat → Option (List Nat) → Option Int
  ep0_data : Nat → List Nat

/-- Python truthiness of an optional byte string: None and an empty
byte string are falsy (the guard at line 553 of the source). -/
def bytesTruthy : Option (List Nat) → Bool
  | none => false
  | some [] => false
  | some (_ :: _) => true

/-- Device-descriptor send transform (source lines 554-563): truncate to
wLength, then if at least 8 bytes remain and byte 7 (bMaxPacketSize0) is
below 64, rewrite that byte to 64. -/
def clampDeviceDesc (blob : List Nat) (wLength : Nat) : List Nat :=
  let data := blob.take wLength
  if 8 ≤ data.length then
    if data.getD 7 0 < 64 then data.set 7 64 else data
  else data

/-- Generic IN forwarding (source lines 586-588): upstream control
transfer, then write the returned bytes to EP0; an exception reaches the
outer handler which stalls EP0 (lines 620-622). -/
def forwardIN (env : Env) (rt rq v i L : Nat) : List Action :=
  match env.ctrl_in rt rq v i L with
  | some bs => [Action.controlTransfer rt rq v i (CtrlArg.len L), Action.ep0Write bs]
  | none => [Action.controlTransfer rt rq v i (CtrlArg.len L), Action.ep0Stall]

/-- Generic OUT forwarding (source lines 589-618). With a data stage the
data is read (and the setup thereby ACKed) before the upstream call; a
failing upstream call raises and the outer handler stalls EP0. Without a
data stage the upstream call comes first and EP0 is ACKed only on a zero
result, stalled otherwise. -/
def forwardOUT (env : Env) (rt rq v i L : Nat) : List Action :=
  if 0 < L then
    Action.ep0Read L ::
      Action.controlTransfer rt rq v i (CtrlArg.out (env.ep0_data L)) ::
      (match env.ctrl_out rt rq v i (some (env.ep0_data L)) with
       | some r => if r < 0 then [Action.ep0Stall] else []
       | none => [Action.ep0Stall])
  else
    Action.controlTransfer rt rq v i CtrlArg.nodata ::
      (match env.ctrl_out rt rq v i none with
       | some r => if r = 0 then [Action.ep0Read 0] else [Action.ep0Stall]
       | none => [Action.ep0Stall])

/-- Cache-backed GET_DESCRIPTOR service (source lines 546-583); on a
cache miss the request falls through to generic IN forwarding. -/
def cached_get_descriptor (env : Env) (s : ProxyState) (rt rq v i L : Nat) : List Action :=
  let descType := (v >>> 8) &&& 0xFF
  let descIndex := v &&& 0xFF
  if descType = USB_DT_DEVICE ∧ bytesTruthy s.device_descriptor = true then
    [Action.ep0Write (clampDeviceDesc (s.device_descriptor.getD []) L)]
  else if descType = USB_DT_CONFIG ∧ (s.config_descriptors.lookup descIndex).isSome = true then
    [Action.ep0Write (((s.config_descriptors.lookup descIndex).getD []).take L)]
  else if descType = USB_DT_STRING ∧ (s.string_descriptors.lookup descIndex).isSome = true then
    [Action.ep0Write (((s.string_descriptors.lookup descIndex).getD []).take L)]
  else forwardIN env rt rq v i L

/-- The handle_control_request method (source lines 522-622), as the
trace of gadget/upstream actions it performs. It reads but never writes
the proxy state. -/
def handle_control_request (env : Env) (s : ProxyState) (rt rq v i L : Nat) : List Action :=
  if rt &&& USB_TYPE_MASK = USB_TYPE_STANDARD ∧ rq = USB_REQ_GET_STATUS ∧ rt &&& USB_DIR_IN ≠ 0 then
    [Action.ep0Write [0, 0]]
  else if rt &&& USB_DIR_IN ≠ 0 then
    if rt &&& USB_TYPE_MASK = USB_TYPE_STANDARD ∧ rq = USB_REQ_GET_DESCRIPTOR then
      cached_get_descriptor env s rt rq v i L
    else forwardIN env rt rq v i L
  else forwardOUT env rt rq v i L

/-- The 7-byte endpoint descriptor built at source lines 740-747
(struct.pack of bLength, bDescriptorType, address, attributes,
wMaxPacketSize little-endian, bInterval). -/
def ep_desc_bytes (e : EpDesc) : List Nat :=
  [7, 5, e.address % 256, e.attributes % 256,
   e.maxPacket % 256, e.maxPacket / 256 % 256, e.interval % 256]

/-- Locate the configuration whose bConfigurationValue matches, as the
loop at source lines 714-718 does (first match wins). -/
def find_config (configs : List ConfigDesc) (value : Nat) : Option ConfigDesc :=
  configs.find? (fun c => c.bConfigurationValue = value)

/-- All endpoints of a configuration, in interface order (the nested
loops at source lines 727-729). -/
def config_endpoints (c : ConfigDesc) : List EpDesc :=
  (c.interfaces.map InterfaceDesc.endpoints).flatten

/-- The setup_endpoints method (source lines 707-788): if the requested
configuration value is not found, log and return with no state change;
otherwise enable every listed endpoint in the gadget and spawn a
reader/writer worker pair per endpoint (modelled as two thread entries
appended per endpoint). -/
def setup_endpoints (env : Env) (s : ProxyState) (value : Nat) : ProxyState × List Action :=
  match find_config env.configs value with
  | none => (s, [])
  | some cfg =>
      let eps := config_endpoints cfg
      ({ s with endpoint_threads :=
           s.endpoint_threads ++ (eps.map (fun e => [e.address, e.address])).flatten },
       eps.map (fun e => Action.epEnable (ep_desc_bytes e)))

/-- The SET_CONFIGURATION block of ep0_loop (source lines 945-973). A
raised exception in set_configuration or configure propagates to the
generic handler at lines 982-985, which only logs: the trace stops at
the failing call, with no stall and no ACK. On success the endpoints are
set up, the configured flags are set, and only then is the setup ACKed
with a zero-length EP0 read. -/
def handle_set_configuration (env : Env) (s : ProxyState) (v : Nat) : ProxyState × List Action :=
  if env.set_configuration_ok = false then
    (s, [Action.setConfiguration v])
  else if env.configure_ok = false then
    (s, [Action.setConfiguration v, Action.configureGadget])
  else
    let p := setup_endpoints env s v
    ({ p.1 with configured := true, device_configured := true },
     Action.setConfiguration v :: Action.configureGadget :: (p.2 ++ [Action.ep0Read 0]))

/-- Decode the 8-byte setup packet, little-endian, as struct.unpack
of format BBHHH does at source line 910. -/
def parse_setup (d : List Nat) : Nat × Nat × Nat × Nat × Nat :=
  (d.getD 0 0, d.getD 1 0,
   d.getD 2 0 + 256 * d.getD 3 0,
   d.getD 4 0 + 256 * d.getD 5 0,
   d.getD 6 0 + 256 * d.getD 7 0)

/-- The CONTROL dispatch of ep0_loop (source lines 910-976): SET_ADDRESS
is ACKed locally, GET_STATUS and GET_CONFIGURATION are answered locally,
SET_CONFIGURATION is handled specially while unconfigured, and anything
else goes to handle_control_request. -/
def dispatch_control (env : Env) (s : ProxyState) (rt rq v i L : Nat) : ProxyState × List Action :=
  if rt &&& USB_TYPE_MASK = USB_TYPE_STANDARD ∧ rq = USB_REQ_SET_ADDRESS then
    (s, [Action.ep0Read 0])
  else if rt &&& USB_TYPE_MASK = USB_TYPE_STANDARD ∧ rq = USB_REQ_GET_STATUS ∧ rt &&& USB_DIR_IN ≠ 0 then
    (s, [Action.ep0Write [0, 0]])
  else if rt &&& USB_TYPE_MASK = USB_TYPE_STANDARD ∧ rq = USB_REQ_GET_CONFIGURATION ∧ rt &&& USB_DIR_IN ≠ 0 then
    (s, [Action.ep0Write [if s.configured then 1 else 0]])
  else if rt &&& USB_TYPE_MASK = USB_TYPE_STANDARD ∧ rq = USB_REQ_SET_CONFIGURATION ∧ s.configured = false then
    handle_set_configuration env s v
  else
    (s, handle_control_request env s rt rq v i L)

/-- A CONTROL event (source lines 903-976): payloads shorter than 8
bytes stall EP0; otherwise the setup packet is parsed and dispatched. -/
def process_control (env : Env) (s : ProxyState) (d : List Nat) : ProxyState × List Action :=
  if d.length < 8 then (s, [Action.ep0Stall])
  else
    match parse_setup d with
    | (rt, rq, v, i, L) => dispatch_control env s rt rq v i L

/-- The cleanup_endpoints method (source lines 790-820): an early return
when no threads exist, otherwise stop the workers, join them, clear the
thread and queue lists, and rearm endpoints_running. -/
def cleanup_endpoints (s : ProxyState) : ProxyState × List Action :=
  if s.endpoint_threads = [] then (s, [])
  else ({ s with endpoint_threads := [], endpoints_running := true }, [Action.stopWorkers])

/-- The RESET/DISCONNECT handler of ep0_loop (source lines 855-882):
DISCONNECT additionally clears host_connected; if either configured flag
is set the endpoints are cleaned up and both flags cleared; in all cases
a reset is issued to the upstream device. -/
def handle_reset (s0 : ProxyState) (isDisconnect : Bool) : ProxyState × List Action :=
  let s := if isDisconnect then { s0 with host_connected := false } else s0
  if s.configured = true ∨ s.device_configured = true then
    let p := cleanup_endpoints s
    ({ p.1 with configured := false, device_configured := false },
     p.2 ++ [Action.upstreamReset])
  else (s, [Action.upstreamReset])

/-- One iteration of the ep0_loop event dispatch (source lines 841-976):
invalid events are skipped, RESET and DISCONNECT are treated identically,
CONNECT tears down a previous session, SUSPEND/RESUME and unknown events
are informational, CONTROL is dispatched. -/
def ep0_step (env : Env) (s : ProxyState) (etype : Nat) (d : List Nat) : ProxyState × List Action :=
  if etype = 0 then (s, [])
  else if etype = USB_RAW_EVENT_RESET ∨ etype = USB_RAW_EVENT_DISCONNECT then
    handle_reset s (etype = USB_RAW_EVENT_DISCONNECT)
  else if etype = USB_RAW_EVENT_CONNECT then
    let s1 := { s with host_connected := true }
    if s1.configured = true ∨ s1.device_configured = true then
      let p := cleanup_endpoints s1
      ({ p.1 with configured := false, device_configured := false }, p.2)
    else (s1, [])
  else if etype = USB_RAW_EVENT_CONTROL then process_control env s d
  else (s, [])

/-- A whole run of the event loop over a list of fetched events,
concatenating the action traces in order. -/
def run_events (env : Env) (s : ProxyState) : List (Nat × List Nat) → ProxyState × List Action
  | [] => (s, [])
  | (t, d) :: rest =>
      let p := ep0_step env s t d
      let q := run_events env p.1 rest
      (q.1, p.2 ++ q.2)

/-- Little-endian 32-bit decode of the first four bytes of a list. -/
def le32 (bs : List Nat) : Nat :=
  bs.getD 0 0 + 256 * bs.getD 1 0 + 65536 * bs.getD 2 0 + 16777216 * bs.getD 3 0

/-- The fetch_event method (source lines 415-441): parse the 8-byte
header from the ioctl buffer, clamp a length above 4096 to 0, and slice
the payload out of the buffer. -/
def fetch_event (buf : List Nat) : Nat × List Nat :=
  let etype := le32 (buf.take 4)
  let len0 := le32 ((buf.drop 4).take 4)
  let elen := if 4096 < len0 then 0 else len0
  (etype, (buf.drop 8).take elen)

/-! Concrete fixtures used by witnesses and counterexamples. -/

/-- A sample upstream configuration with value 1, one interface, one
bulk IN and one bulk OUT endpoint. -/
def cfgW : ConfigDesc := ⟨1, [⟨[⟨0x81, 2, 64, 0⟩, ⟨0x02, 2, 64, 0⟩]⟩]⟩

/-- An environment in which every upstream call succeeds. -/
def envOK : Env where
  set_configuration_ok := true
  configure_ok := true
  configs := [cfgW]
  ctrl_in := fun _ _ _ _ _ => some []
  ctrl_out := fun _ _ _ _ _ => some 0
  ep0_data := fun n => List.replicate n 0xAB

/-- An environment in which upstream control transfers raise. -/
def envCtrlFail : Env where
  set_configuration_ok := true
  configure_ok := true
  configs := [cfgW]
  ctrl_in := fun _ _ _ _ _ => none
  ctrl_out := fun _ _ _ _ _ => none
  ep0_data := fun n => List.replicate n 0xAB

/-- An environment in which upstream set_configuration raises. -/
def envScFail : Env where
  set_configuration_ok := false
  configure_ok := true
  configs := [cfgW]
  ctrl_in := fun _ _ _ _ _ => some []
  ctrl_out := fun _ _ _ _ _ => some 0
  ep0_data := fun n => List.replicate n 0xAB

/-- An environment in which no upstream configuration matches. -/
def envNoCfg : Env where
  set_configuration_ok := true
  configure_ok := true
  configs := []
  ctrl_in := fun _ _ _ _ _ => some []
  ctrl_out := fun _ _ _ _ _ => some 0
  ep0_data := fun n => List.replicate n 0xAB

/-- An 18-byte device descriptor whose bMaxPacketSize0 (byte 7) is 8,
below the 64 clamp threshold. -/
def devBlobLow : List Nat :=
  [0x12, 0x01, 0x00, 0x02, 0xFF, 0x00, 0x00, 0x08,
   0x34, 0x12, 0x78, 0x56, 0x00, 0x01, 0x01, 0x02, 0x03, 0x01]

/-- An unconfigured proxy state with a populated descriptor cache. -/
def stUnconf : ProxyState where
  device_descriptor := some devBlobLow
  config_descriptors := [(0, [9, 2, 32, 0, 1, 1, 0, 0x80, 50])]
  string_descriptors := [(1, [4, 3, 9, 4])]
  configured := false
  device_configured := false
  endpoint_threads := []
  endpoints_running := true
  host_connected := true

/-- A configured proxy state with running endpoint threads. -/
def stConf : ProxyState :=
  { stUnconf with configured := true, device_configured := true,
                  endpoint_threads := [0x81, 0x81, 0x02, 0x02] }

/-! Shared helper lemmas. -/

/-- A nonempty byte string is truthy. -/
lemma bytesTruthy_some_ne {bs : List Nat} (h : bs ≠ []) : bytesTruthy (some bs) = true := by
  cases bs with
  | nil => exact absurd rfl h
  | cons a t => rfl

/-- getD after set at the same in-bounds index returns the new value. -/
lemma list_getD_set_self (a x : Nat) :
    ∀ (l : List Nat) (n : Nat), n < l.length → (l.set n a).getD n x = a
  | [], n, h => absurd h (by simp)
  | b :: t, 0, _ => rfl
  | b :: t, n + 1, h => list_getD_set_self a x t n (by simpa using h)

/-- The clamp is the identity when the truncated descriptor is shorter
than 8 bytes or its byte 7 is already at least 64. -/
lemma clampDeviceDesc_eq_take (blob : List Nat) (L : Nat)
    (h : (blob.take L).length < 8 ∨ 64 ≤ (blob.take L).getD 7 0) :
    clampDeviceDesc blob L = blob.take L := by
  rcases h with h | h
  · simp only [clampDeviceDesc]
    rw [if_neg (by omega)]
  · simp only [clampDeviceDesc]
    split
    · rw [if_neg (by omega)]
    · rfl

/-- C9: for every fetched event, a header length above 4096 yields an
empty payload; the payload never exceeds 4096 bytes and is always a
prefix of the in-bounds region of the buffer after the 8-byte header. -/
theorem fetch_event_clamps (buf : List Nat) :
    (fetch_event buf).2.length ≤ 4096 ∧
    (4096 < le32 ((buf.drop 4).take 4) → (fetch_event buf).2 = []) ∧
    (fetch_event buf).2 <+: buf.drop 8 := by
  refine ⟨?_, ?_, ?_⟩
  · simp only [fetch_event]
    split
    · simp
    · next h =>
        have := List.length_take_le (le32 ((buf.drop 4).take 4)) (buf.drop 8)
        omega
  · intro h
    simp [fetch_event, h]
  · exact List.take_prefix _ _

/-- C9 witness: a concrete buffer whose header claims 4097 bytes is
clamped to an empty payload. -/
theorem fetch_event_clamps_witness :
    (fetch_event [2, 0, 0, 0, 1, 16, 0, 0, 7, 7, 7]).2 = [] :=
  (fetch_event_clamps [2, 0, 0, 0, 1, 16, 0, 0, 7, 7, 7]).2.1 (by decide)

/-- C4: for a generically forwarded OUT control request with zero
wLength, the upstream transfer comes first; the setup is ACKed with a
zero-length EP0 read only on a zero result, and EP0 is stalled on a
nonzero result or a raised exception. -/
theorem out_zero_length_ack_after_upstream (env : Env) (s : ProxyState) (rt rq v i : Nat)
    (hout : rt &&& USB_DIR_IN = 0) :
    (env.ctrl_out rt rq v i none = some 0 →
      handle_control_request env s rt rq v i 0 =
        [Action.controlTransfer rt rq v i CtrlArg.nodata, Action.ep0Read 0]) ∧
    (∀ r : Int, env.ctrl_out rt rq v i none = some r → r ≠ 0 →
      handle_control_request env s rt rq v i 0 =
        [Action.controlTransfer rt rq v i CtrlArg.nodata, Action.ep0Stall]) ∧
    (env.ctrl_out rt rq v i none = none →
      handle_control_request env s rt rq v i 0 =
        [Action.controlTransfer rt rq v i CtrlArg.nodata, Action.ep0Stall]) := by
  refine ⟨fun hc => ?_, fun r hc hr => ?_, fun hc => ?_⟩
  · simp [handle_control_request, forwardOUT, hout, hc]
  · simp [handle_control_request, forwardOUT, hout, hc, hr]
  · simp [handle_control_request, forwardOUT, hout, hc]

/-- C4 witness: a concrete class OUT request with zero wLength in a
successful environment is forwarded and then ACKed. -/
theorem out_zero_length_ack_after_upstream_witness :
    handle_control_request envOK stUnconf 0x21 0x20 0 0 0 =
      [Action.controlTransfer 0x21 0x20 0 0 CtrlArg.nodata, Action.ep0Read 0] :=
  (out_zero_length_ack_after_upstream envOK stUnconf 0x21 0x20 0 0 (by decide)).1 (by decide)

/-- C3 counterexample: for an OUT vendor request with wLength 4 whose
upstream transfer raises, the trace does contain ep0Stall, contradicting
the claim that the proxy does not stall EP0 after the data stage. -/
theorem out_data_stage_failure_counterexample :
    Action.ep0Stall ∈ handle_control_request envCtrlFail stUnconf 0x40 0x10 1 0 4 := by
  decide

/-- C3 amended: for a generically forwarded OUT control request with
wLength above zero, the proxy first reads the data from downstream with
ep0Read(wLength), then issues the upstream transfer with the received
bytes; on upstream success nothing more happens, but on a raised
exception or a negative result the outer handler stalls EP0 even though
downstream was already ACKed by the data-stage read. -/
theorem out_data_stage_read_then_forward (env : Env) (s : ProxyState) (rt rq v i L : Nat)
    (hout : rt &&& USB_DIR_IN = 0) (hL : 0 < L) :
    (∀ r : Int, env.ctrl_out rt rq v i (some (env.ep0_data L)) = some r → 0 ≤ r →
      handle_control_request env s rt rq v i L =
        [Action.ep0Read L,
         Action.controlTransfer rt rq v i (CtrlArg.out (env.ep0_data L))]) ∧
    (env.ctrl_out rt rq v i (some (env.ep0_data L)) = none →
      handle_control_request env s rt rq v i L =
        [Action.ep0Read L,
         Action.controlTransfer rt rq v i (CtrlArg.out (env.ep0_data L)),
         Action.ep0Stall]) ∧
    (∀ r : Int, env.ctrl_out rt rq v i (some (env.ep0_data L)) = some r → r < 0 →
      handle_control_request env s rt rq v i L =
        [Action.ep0Read L,
         Action.controlTransfer rt rq v i (CtrlArg.out (env.ep0_data L)),
         Action.ep0Stall]) := by
  refine ⟨fun r hc hr => ?_, fun hc => ?_, fun r hc hr => ?_⟩
  · simp [handle_control_request, forwardOUT, hout, hL, hc, Int.not_lt.mpr hr]
  · simp [handle_control_request, forwardOUT, hout, hL, hc]
  · simp [handle_control_request, forwardOUT, hout, hL, hc, hr]

/-- C3 witness for the amended claim: a concrete failing OUT transfer
with a data stage reads, forwards, and stalls. -/
theorem out_data_stage_read_then_forward_witness :
    handle_control_request envCtrlFail stUnconf 0x40 0x10 1 0 4 =
      [Action.ep0Read 4,
       Action.controlTransfer 0x40 0x10 1 0 (CtrlArg.out (envCtrlFail.ep0_data 4)),
       Action.ep0Stall] :=
  (out_data_stage_read_then_forward envCtrlFail stUnconf 0x40 0x10 1 0 4 (by decide)
    (by decide)).2.1 rfl

/-- C1: for a CONTROL event carrying a standard SET_CONFIGURATION while
unconfigured, and an upstream where every step succeeds, the trace is
exactly: upstream setConfiguration(wValue), gadget configure, one
epEnable per (non-control) endpoint of the selected configuration, then
the ACK ep0Read(0); two forwarder workers are spawned per endpoint, the
state ends with deviceConfigured true, and no EP0 read, write or stall
occurs before the final ACK. -/
theorem set_configuration_ordering (env : Env) (s : ProxyState) (d : List Nat)
    (rt v i L : Nat) (cfg : ConfigDesc)
    (h8 : 8 ≤ d.length)
    (hparse : parse_setup d = (rt, USB_REQ_SET_CONFIGURATION, v, i, L))
    (hstd : rt &&& USB_TYPE_MASK = USB_TYPE_STANDARD)
    (hcfg : s.configured = false)
    (hok1 : env.set_configuration_ok = true)
    (hok2 : env.configure_ok = true)
    (hfind : find_config env.configs v = some cfg)
    (hnonctrl : ∀ e ∈ config_endpoints cfg, e.attributes &&& 3 ≠ 0) :
    process_control env s d =
      ({ s with configured := true, device_configured := true,
                endpoint_threads := s.endpoint_threads ++
                  ((config_endpoints cfg).map (fun e => [e.address, e.address])).flatten },
       Action.setConfiguration v :: Action.configureGadget ::
         ((config_endpoints cfg).map (fun e => Action.epEnable (ep_desc_bytes e)) ++
          [Action.ep0Read 0])) ∧
    (∀ a ∈ Action.setConfiguration v :: Action.configureGadget ::
         (config_endpoints cfg).map (fun e => Action.epEnable (ep_desc_bytes e)),
       (∀ n, a ≠ Action.ep0Read n) ∧ (∀ bs, a ≠ Action.ep0Write bs) ∧ a ≠ Action.ep0Stall) := by
  constructor
  · have hne : ¬ d.length < 8 := by omega
    simp only [process_control, hne, if_false, hparse]
    simp [dispatch_control, handle_set_configuration, setup_endpoints, hstd, hcfg,
          hok1, hok2, hfind, USB_REQ_SET_CONFIGURATION, USB_REQ_SET_ADDRESS,
          USB_REQ_GET_STATUS, USB_REQ_GET_CONFIGURATION, USB_TYPE_STANDARD]
  · intro a ha
    rcases List.mem_cons.mp ha with rfl | ha
    · exact ⟨fun n => by simp, fun bs => by simp, by simp⟩
    rcases List.mem_cons.mp ha with rfl | ha
    · exact ⟨fun n => by simp, fun bs => by simp, by simp⟩
    obtain ⟨e, _, rfl⟩ := List.mem_map.mp ha
    exact ⟨fun n => by simp, fun bs => by simp, by simp⟩

/-- C1 witness: a concrete SET_CONFIGURATION(1) on the sample
configuration ends configured with the expected full trace. -/
theorem set_configuration_ordering_witness :
    (process_control envOK stUnconf [0, 9, 1, 0, 0, 0, 0, 0]).1.device_configured = true ∧
    (process_control envOK stUnconf [0, 9, 1, 0, 0, 0, 0, 0]).2 =
      [Action.setConfiguration 1, Action.configureGadget,
       Action.epEnable (ep_desc_bytes ⟨0x81, 2, 64, 0⟩),
       Action.epEnable (ep_desc_bytes ⟨0x02, 2, 64, 0⟩),
       Action.ep0Read 0] := by
  have h := set_configuration_ordering envOK stUnconf [0, 9, 1, 0, 0, 0, 0, 0]
    0 1 0 0 cfgW (by decide) (by decide) (by decide) rfl rfl rfl (by decide) (by decide)
  rw [h.1]
  exact ⟨rfl, by decide⟩

/-- C2 counterexample: when upstream setConfiguration raises, the trace
contains no ep0Stall (the exception is only logged by the loop), and
when no configuration matches the requested value, the proxy still sets
deviceConfigured and ACKs with ep0Read(0) without stalling. -/
theorem set_configuration_failure_counterexample :
    (envScFail.set_configuration_ok = false ∧
     Action.ep0Stall ∉ (process_control envScFail stUnconf [0, 9, 1, 0, 0, 0, 0, 0]).2 ∧
     (process_control envScFail stUnconf [0, 9, 1, 0, 0, 0, 0, 0]).2 =
       [Action.setConfiguration 1]) ∧
    (find_config envNoCfg.configs 1 = none ∧
     (process_control envNoCfg stUnconf [0, 9, 1, 0, 0, 0, 0, 0]).1.device_configured = true ∧
     Action.ep0Read 0 ∈ (process_control envNoCfg stUnconf [0, 9, 1, 0, 0, 0, 0, 0]).2 ∧
     Action.ep0Stall ∉ (process_control envNoCfg stUnconf [0, 9, 1, 0, 0, 0, 0, 0]).2) := by
  decide

/-- C2 amended: when upstream setConfiguration or gadget configure
raise, the exception propagates to the generic loop handler which only
logs: no stall, no ACK, and the state (deviceConfigured included) is
unchanged. When endpoint setup finds no configuration matching wValue,
the proxy neither stalls nor aborts: it enables no endpoints but still
sets configured and deviceConfigured and ACKs with ep0Read(0). -/
theorem set_configuration_failure_behavior (env : Env) (s : ProxyState) (v : Nat) :
    (env.set_configuration_ok = false →
      handle_set_configuration env s v = (s, [Action.setConfiguration v])) ∧
    (env.set_configuration_ok = true → env.configure_ok = false →
      handle_set_configuration env s v =
        (s, [Action.setConfiguration v, Action.configureGadget])) ∧
    (env.set_configuration_ok = true → env.configure_ok = true →
      find_config env.configs v = none →
      handle_set_configuration env s v =
        ({ s with configured := true, device_configured := true },
         [Action.setConfiguration v, Action.configureGadget, Action.ep0Read 0])) := by
  refine ⟨fun h1 => ?_, fun h1 h2 => ?_, fun h1 h2 h3 => ?_⟩
  · simp [handle_set_configuration, h1]
  · simp [handle_set_configuration, h1, h2]
  · simp [handle_set_configuration, setup_endpoints, h1, h2, h3]

/-- C2 witness for the amended claim: the concrete failing upstream
setConfiguration leaves the state unchanged with a one-call trace. -/
theorem set_configuration_failure_behavior_witness :
    handle_set_configuration envScFail stUnconf 1 = (stUnconf, [Action.setConfiguration 1]) :=
  (set_configuration_failure_behavior envScFail stUnconf 1).1 rfl

/-- The clamp never changes the length of the truncated descriptor. -/
lemma clampDeviceDesc_length (blob : List Nat) (L : Nat) :
    (clampDeviceDesc blob L).length = (blob.take L).length := by
  simp only [clampDeviceDesc]
  repeat' split
  all_goals simp

/-- Byte 7 of the clamped descriptor is at least 64 whenever present. -/
lemma clampDeviceDesc_getD7 (blob : List Nat) (L : Nat)
    (h : 8 ≤ (blob.take L).length) : 64 ≤ (clampDeviceDesc blob L).getD 7 0 := by
  simp only [clampDeviceDesc]
  rw [if_pos h]
  split
  · rw [list_getD_set_self 64 0 (blob.take L) 7 (by omega)]
  · omega

/-- The CONTROL dispatch never writes the descriptor cache fields. -/
lemma dispatch_preserves_cache (env : Env) (s : ProxyState) (rt rq v i L : Nat) :
    (dispatch_control env s rt rq v i L).1.device_descriptor = s.device_descriptor ∧
    (dispatch_control env s rt rq v i L).1.config_descriptors = s.config_descriptors ∧
    (dispatch_control env s rt rq v i L).1.string_descriptors = s.string_descriptors := by
  unfold dispatch_control handle_set_configuration setup_endpoints
  repeat' split
  all_goals simp

/-- Processing a CONTROL event never writes the descriptor cache. -/
lemma process_control_preserves_cache (env : Env) (s : ProxyState) (d : List Nat) :
    (process_control env s d).1.device_descriptor = s.device_descriptor ∧
    (process_control env s d).1.config_descriptors = s.config_descriptors ∧
    (process_control env s d).1.string_descriptors = s.string_descriptors := by
  by_cases h : d.length < 8
  · simp [process_control, h]
  · rcases hE : parse_setup d with ⟨rt, rq, v, i, L⟩
    simp only [process_control, h, if_false, hE]
    exact dispatch_preserves_cache env s rt rq v i L

/-- C6: a device descriptor served from the cache is the truncated blob
with byte 7 clamped: whenever the response has at least 8 bytes its byte
7 is at least 64, a value below 64 is rewritten to exactly 64, and the
clamp happens at send time only: processing any CONTROL event leaves
every cached descriptor unchanged. -/
theorem device_descriptor_clamp (env : Env) (s : ProxyState) (rt v i L : Nat)
    (blob d : List Nat)
    (hin : rt &&& USB_DIR_IN ≠ 0) (hstd : rt &&& USB_TYPE_MASK = USB_TYPE_STANDARD)
    (hdt : (v >>> 8) &&& 0xFF = USB_DT_DEVICE)
    (hsome : s.device_descriptor = some blob) (hne : blob ≠ []) :
    handle_control_request env s rt USB_REQ_GET_DESCRIPTOR v i L =
      [Action.ep0Write (clampDeviceDesc blob L)] ∧
    (8 ≤ (clampDeviceDesc blob L).length → 64 ≤ (clampDeviceDesc blob L).getD 7 0) ∧
    ((blob.take L).getD 7 0 < 64 → 8 ≤ (blob.take L).length →
      (clampDeviceDesc blob L).getD 7 0 = 64) ∧
    ((process_control env s d).1.device_descriptor = s.device_descriptor ∧
     (process_control env s d).1.config_descriptors = s.config_descriptors ∧
     (process_control env s d).1.string_descriptors = s.string_descriptors) := by
  refine ⟨?_, ?_, ?_, process_control_preserves_cache env s d⟩
  · simp [handle_control_request, cached_get_descriptor, hin, hstd, hdt, hsome,
          bytesTruthy_some_ne hne, USB_REQ_GET_DESCRIPTOR, USB_REQ_GET_STATUS,
          USB_TYPE_STANDARD, USB_DT_DEVICE]
  · intro h
    rw [clampDeviceDesc_length] at h
    exact clampDeviceDesc_getD7 blob L h
  · intro hlow hlen
    simp only [clampDeviceDesc]
    rw [if_pos hlen, if_pos hlow, list_getD_set_self 64 0 (blob.take L) 7 (by omega)]

/-- C6 witness: the sample device descriptor with bMaxPacketSize0 8 is
served with byte 7 rewritten to 64. -/
theorem device_descriptor_clamp_witness :
    handle_control_request envOK stUnconf 0x80 USB_REQ_GET_DESCRIPTOR 0x0100 0 18 =
      [Action.ep0Write (clampDeviceDesc devBlobLow 18)] ∧
    clampDeviceDesc devBlobLow 18 = devBlobLow.set 7 64 := by
  have h := device_descriptor_clamp envOK stUnconf 0x80 0x0100 0 18 devBlobLow []
    (by decide) (by decide) (by decide) rfl (by decide)
  exact ⟨h.1, by decide⟩

/-- C5 counterexample: the clamped device descriptor response for the
sample cache (bMaxPacketSize0 = 8) is not a prefix of the cached blob
and differs from its wLength-truncation, refuting the claim that every
cache-served response is a truncated prefix of the cached blob. -/
theorem cached_prefix_counterexample :
    handle_control_request envOK stUnconf 0x80 USB_REQ_GET_DESCRIPTOR 0x0100 0 18 =
      [Action.ep0Write (clampDeviceDesc devBlobLow 18)] ∧
    (clampDeviceDesc devBlobLow 18).isPrefixOf devBlobLow = false ∧
    clampDeviceDesc devBlobLow 18 ≠ devBlobLow.take 18 := by
  decide

/-- C5 amended: configuration and string descriptor responses served
from the cache are exactly the cached blob truncated to wLength (hence
prefixes); a device descriptor response is the truncated blob with the
byte-7 clamp applied, which coincides with the truncated prefix exactly
when the truncation is shorter than 8 bytes or the cached
bMaxPacketSize0 is already at least 64. -/
theorem cached_descriptor_responses (env : Env) (s : ProxyState) (rt v i L : Nat)
    (blob : List Nat)
    (hin : rt &&& USB_DIR_IN ≠ 0) (hstd : rt &&& USB_TYPE_MASK = USB_TYPE_STANDARD) :
    ((v >>> 8) &&& 0xFF = USB_DT_CONFIG →
      s.config_descriptors.lookup (v &&& 0xFF) = some blob →
      handle_control_request env s rt USB_REQ_GET_DESCRIPTOR v i L =
        [Action.ep0Write (blob.take L)]) ∧
    ((v >>> 8) &&& 0xFF = USB_DT_STRING →
      s.string_descriptors.lookup (v &&& 0xFF) = some blob →
      handle_control_request env s rt USB_REQ_GET_DESCRIPTOR v i L =
        [Action.ep0Write (blob.take L)]) ∧
    ((v >>> 8) &&& 0xFF = USB_DT_DEVICE → s.device_descriptor = some blob → blob ≠ [] →
      handle_control_request env s rt USB_REQ_GET_DESCRIPTOR v i L =
        [Action.ep0Write (clampDeviceDesc blob L)]) ∧
    ((blob.take L).length < 8 ∨ 64 ≤ (blob.take L).getD 7 0 →
      clampDeviceDesc blob L = blob.take L) := by
  refine ⟨fun hdt hlk => ?_, fun hdt hlk => ?_, fun hdt hsome hne => ?_,
          clampDeviceDesc_eq_take blob L⟩
  · simp [handle_control_request, cached_get_descriptor, hin, hstd, hdt, hlk,
          USB_REQ_GET_DESCRIPTOR, USB_REQ_GET_STATUS, USB_TYPE_STANDARD,
          USB_DT_DEVICE, USB_DT_CONFIG, USB_DT_STRING]
  · simp [handle_control_request, cached_get_descriptor, hin, hstd, hdt, hlk,
          USB_REQ_GET_DESCRIPTOR, USB_REQ_GET_STATUS, USB_TYPE_STANDARD,
          USB_DT_DEVICE, USB_DT_CONFIG, USB_DT_STRING]
  · simp [handle_control_request, cached_get_descriptor, hin, hstd, hdt, hsome,
          bytesTruthy_some_ne hne, USB_REQ_GET_DESCRIPTOR, USB_REQ_GET_STATUS,
          USB_TYPE_STANDARD, USB_DT_DEVICE]

/-- C5 witness for the amended claim: the sample cached configuration
descriptor is served as its 9-byte truncated prefix. -/
theorem cached_descriptor_responses_witness :
    handle_control_request envOK stUnconf 0x80 USB_REQ_GET_DESCRIPTOR 0x0200 0 9 =
      [Action.ep0Write (([9, 2, 32, 0, 1, 1, 0, 0x80, 50] : List Nat).take 9)] :=
  (cached_descriptor_responses envOK stUnconf 0x80 0x0200 0 9 [9, 2, 32, 0, 1, 1, 0, 0x80, 50]
    (by decide) (by decide)).1 (by decide) (by decide)

/-- C10: the byte-7 clamp is applied only when the truncated response
has at least 8 bytes: for wLength below 8 the truncated prefix is sent
unmodified; and with no cached device descriptor (None or empty) the
request falls through to generic upstream forwarding. -/
theorem device_descriptor_edge_cases (env : Env) (s : ProxyState) (rt v i L : Nat)
    (blob : List Nat)
    (hin : rt &&& USB_DIR_IN ≠ 0) (hstd : rt &&& USB_TYPE_MASK = USB_TYPE_STANDARD)
    (hdt : (v >>> 8) &&& 0xFF = USB_DT_DEVICE) :
    (s.device_descriptor = some blob → blob ≠ [] → L < 8 →
      handle_control_request env s rt USB_REQ_GET_DESCRIPTOR v i L =
        [Action.ep0Write (blob.take L)]) ∧
    ((s.device_descriptor = none ∨ s.device_descriptor = some []) → ∀ bs,
      env.ctrl_in rt USB_REQ_GET_DESCRIPTOR v i L = some bs →
      handle_control_request env s rt USB_REQ_GET_DESCRIPTOR v i L =
        [Action.controlTransfer rt USB_REQ_GET_DESCRIPTOR v i (CtrlArg.len L),
         Action.ep0Write bs]) ∧
    ((s.device_descriptor = none ∨ s.device_descriptor = some []) →
      env.ctrl_in rt USB_REQ_GET_DESCRIPTOR v i L = none →
      handle_control_request env s rt USB_REQ_GET_DESCRIPTOR v i L =
        [Action.controlTransfer rt USB_REQ_GET_DESCRIPTOR v i (CtrlArg.len L),
         Action.ep0Stall]) := by
  refine ⟨fun hsome hne hL => ?_, fun hmiss bs hc => ?_, fun hmiss hc => ?_⟩
  · have htake : clampDeviceDesc blob L = blob.take L := by
      refine clampDeviceDesc_eq_take blob L (Or.inl ?_)
      have := List.length_take_le L blob
      omega
    rw [← htake]
    simp [handle_control_request, cached_get_descriptor, hin, hstd, hdt, hsome,
          bytesTruthy_some_ne hne, USB_REQ_GET_DESCRIPTOR, USB_REQ_GET_STATUS,
          USB_TYPE_STANDARD, USB_DT_DEVICE]
  · have hfalsy : bytesTruthy s.device_descriptor = false := by
      rcases hmiss with h | h <;> simp [h, bytesTruthy]
    simp only [USB_REQ_GET_DESCRIPTOR] at hc
    simp [handle_control_request, cached_get_descriptor, forwardIN, hin, hstd, hdt,
          hfalsy, hc, USB_REQ_GET_DESCRIPTOR, USB_REQ_GET_STATUS, USB_TYPE_STANDARD,
          USB_DT_DEVICE, USB_DT_CONFIG, USB_DT_STRING]
  · have hfalsy : bytesTruthy s.device_descriptor = false := by
      rcases hmiss with h | h <;> simp [h, bytesTruthy]
    simp only [USB_REQ_GET_DESCRIPTOR] at hc
    simp [handle_control_request, cached_get_descriptor, forwardIN, hin, hstd, hdt,
          hfalsy, hc, USB_REQ_GET_DESCRIPTOR, USB_REQ_GET_STATUS, USB_TYPE_STANDARD,
          USB_DT_DEVICE, USB_DT_CONFIG, USB_DT_STRING]

/-- C10 witness: a 4-byte GET_DESCRIPTOR(device) on the sample cache is
served as the unmodified 4-byte prefix. -/
theorem device_descriptor_edge_cases_witness :
    handle_control_request envOK stUnconf 0x80 USB_REQ_GET_DESCRIPTOR 0x0100 0 4 =
      [Action.ep0Write (devBlobLow.take 4)] :=
  (device_descriptor_edge_cases envOK stUnconf 0x80 0x0100 0 4 devBlobLow
    (by decide) (by decide) (by decide)).1 rfl (by decide) (by decide)

/-- Behavior of the reset handler under the thread-list invariant of the
event loop (threads only exist while a configured flag is set). -/
lemma handle_reset_spec (s : ProxyState) (b : Bool)
    (hinv : s.endpoint_threads ≠ [] → s.configured = true ∨ s.device_configured = true) :
    (handle_reset s b).1.device_configured = false ∧
    (handle_reset s b).1.configured = false ∧
    (handle_reset s b).1.endpoint_threads = [] ∧
    Action.upstreamReset ∈ (handle_reset s b).2 ∧
    (s.endpoint_threads ≠ [] → Action.stopWorkers ∈ (handle_reset s b).2) := by
  by_cases hc : s.configured = true ∨ s.device_configured = true
  · by_cases ht : s.endpoint_threads = []
    · cases b <;> simp [handle_reset, cleanup_endpoints, hc, ht]
    · cases b <;> simp [handle_reset, cleanup_endpoints, hc, ht]
  · have h1 : s.configured = false := by
      cases hcfg : s.configured
      · rfl
      · exact absurd (Or.inl hcfg) hc
    have h2 : s.device_configured = false := by
      cases hdc : s.device_configured
      · rfl
      · exact absurd (Or.inr hdc) hc
    have ht : s.endpoint_threads = [] := by
      by_cases ht : s.endpoint_threads = []
      · exact ht
      · exact absurd (hinv ht) hc
    cases b <;> simp [handle_reset, cleanup_endpoints, hc, ht, h1, h2]

/-- C7: after any RESET or DISCONNECT event (the two take the same
path), deviceConfigured and configured are false, the endpoint thread
list is empty, the workers were stopped whenever any were running, and
an upstream device reset was issued, all before the next event is
fetched. -/
theorem reset_clears_state (env : Env) (s : ProxyState) (etype : Nat) (d : List Nat)
    (he : etype = USB_RAW_EVENT_RESET ∨ etype = USB_RAW_EVENT_DISCONNECT)
    (hinv : s.endpoint_threads ≠ [] → s.configured = true ∨ s.device_configured = true) :
    (ep0_step env s etype d).1.device_configured = false ∧
    (ep0_step env s etype d).1.configured = false ∧
    (ep0_step env s etype d).1.endpoint_threads = [] ∧
    Action.upstreamReset ∈ (ep0_step env s etype d).2 ∧
    (s.endpoint_threads ≠ [] → Action.stopWorkers ∈ (ep0_step env s etype d).2) := by
  have hstep : ep0_step env s etype d =
      handle_reset s (etype = USB_RAW_EVENT_DISCONNECT) := by
    rcases he with rfl | rfl <;>
      simp [ep0_step, USB_RAW_EVENT_RESET, USB_RAW_EVENT_DISCONNECT]
  rw [hstep]
  exact handle_reset_spec s _ hinv

/-- C7 witness: a RESET in the configured sample state clears both
flags, empties the thread list, and stops the workers. -/
theorem reset_clears_state_witness :
    (ep0_step envOK stConf USB_RAW_EVENT_RESET []).1.device_configured = false ∧
    Action.stopWorkers ∈ (ep0_step envOK stConf USB_RAW_EVENT_RESET []).2 := by
  have h := reset_clears_state envOK stConf USB_RAW_EVENT_RESET [] (Or.inl rfl) (by decide)
  exact ⟨h.1, h.2.2.2.2 (by decide)⟩

/-- Any upstream control transfer issued by handle_control_request
carries exactly the requestType and request of the setup packet. -/
lemma controlTransfer_mem_hcr {env : Env} {s : ProxyState}
    {rt rq v i L rta rqa va ia : Nat} {a : CtrlArg}
    (h : Action.controlTransfer rta rqa va ia a ∈ handle_control_request env s rt rq v i L) :
    rta = rt ∧ rqa = rq := by
  unfold handle_control_request cached_get_descriptor forwardIN forwardOUT at h
  dsimp only at h
  repeat' split at h
  all_goals simp_all

/-- SET_CONFIGURATION handling issues no raw upstream control transfer
(the configuration is selected through the set_configuration call). -/
lemma controlTransfer_not_mem_hsc {env : Env} {s : ProxyState} {v : Nat}
    {rta rqa va ia : Nat} {a : CtrlArg} :
    Action.controlTransfer rta rqa va ia a ∉ (handle_set_configuration env s v).2 := by
  unfold handle_set_configuration setup_endpoints
  repeat' split
  all_goals simp

/-- Endpoint cleanup issues no upstream control transfer. -/
lemma controlTransfer_not_mem_cleanup {s : ProxyState}
    {rta rqa va ia : Nat} {a : CtrlArg} :
    Action.controlTransfer rta rqa va ia a ∉ (cleanup_endpoints s).2 := by
  unfold cleanup_endpoints
  split
  all_goals simp

/-- Reset handling issues no upstream control transfer. -/
lemma controlTransfer_not_mem_reset {s : ProxyState} {b : Bool}
    {rta rqa va ia : Nat} {a : CtrlArg} :
    Action.controlTransfer rta rqa va ia a ∉ (handle_reset s b).2 := by
  intro h
  unfold handle_reset cleanup_endpoints at h
  dsimp only at h
  repeat' split at h
  all_goals simp_all

/-- A CONTROL dispatch never issues an upstream control transfer whose
fields form a standard SET_ADDRESS. -/
lemma dispatch_no_set_address {env : Env} {s : ProxyState}
    {rt rq v i L rta rqa va ia : Nat} {a : CtrlArg}
    (h : Action.controlTransfer rta rqa va ia a ∈ (dispatch_control env s rt rq v i L).2) :
    ¬(rta &&& USB_TYPE_MASK = USB_TYPE_STANDARD ∧ rqa = USB_REQ_SET_ADDRESS) := by
  unfold dispatch_control at h
  split at h
  · simp at h
  · rename_i h1
    split at h
    · simp at h
    · split at h
      · simp at h
      · split at h
        · exact absurd h controlTransfer_not_mem_hsc
        · obtain ⟨hrt, hrq⟩ := controlTransfer_mem_hcr h
          subst hrt
          subst hrq
          exact h1

/-- One event-loop step never issues an upstream standard SET_ADDRESS
control transfer. -/
lemma step_no_set_address {env : Env} {s : ProxyState} {etype : Nat} {d : List Nat}
    {rta rqa va ia : Nat} {a : CtrlArg}
    (h : Action.controlTransfer rta rqa va ia a ∈ (ep0_step env s etype d).2) :
    ¬(rta &&& USB_TYPE_MASK = USB_TYPE_STANDARD ∧ rqa = USB_REQ_SET_ADDRESS) := by
  unfold ep0_step at h
  dsimp only at h
  split at h
  · simp at h
  · split at h
    · exact absurd h controlTransfer_not_mem_reset
    · split at h
      · split at h
        · exact absurd h controlTransfer_not_mem_cleanup
        · simp at h
      · split at h
        · unfold process_control at h
          split at h
          · simp at h
          · rcases hE : parse_setup d with ⟨rt1, rq1, v1, i1, L1⟩
            rw [hE] at h
            exact dispatch_no_set_address h
        · simp at h

/-- No run of the event loop ever issues an upstream standard
SET_ADDRESS control transfer. -/
lemma run_no_set_address (env : Env) {rta rqa va ia : Nat} {a : CtrlArg} :
    ∀ (events : List (Nat × List Nat)) (st : ProxyState),
      Action.controlTransfer rta rqa va ia a ∈ (run_events env st events).2 →
      ¬(rta &&& USB_TYPE_MASK = USB_TYPE_STANDARD ∧ rqa = USB_REQ_SET_ADDRESS) := by
  intro events
  induction events with
  | nil =>
      intro st h
      simp [run_events] at h
  | cons e rest ih =>
      intro st h
      rcases e with ⟨t, d⟩
      simp only [run_events] at h
      rcases List.mem_append.mp h with h | h
      · exact step_no_set_address h
      · exact ih _ h

/-- C8: a standard SET_ADDRESS CONTROL event is answered only by the
local ACK ep0Read(0) with no state change, and across any whole run of
the event loop no upstream control transfer with standard type and
request 0x05 is ever issued. -/
theorem set_address_local_only (env : Env) (s : ProxyState) (d : List Nat)
    (h8 : 8 ≤ d.length)
    (hstd : (parse_setup d).1 &&& USB_TYPE_MASK = USB_TYPE_STANDARD)
    (hreq : (parse_setup d).2.1 = USB_REQ_SET_ADDRESS) :
    process_control env s d = (s, [Action.ep0Read 0]) ∧
    ∀ (events : List (Nat × List Nat)) (st : ProxyState) (rt rq v i : Nat) (a : CtrlArg),
      Action.controlTransfer rt rq v i a ∈ (run_events env st events).2 →
      ¬(rt &&& USB_TYPE_MASK = USB_TYPE_STANDARD ∧ rq = USB_REQ_SET_ADDRESS) := by
  constructor
  · rcases hE : parse_setup d with ⟨rt1, rq1, v1, i1, L1⟩
    rw [hE] at hstd hreq
    dsimp only at hstd hreq
    have hne : ¬ d.length < 8 := by omega
    simp only [process_control, hne, if_false, hE]
    simp [dispatch_control, hstd, hreq]
  · intro events st rt rq v i a h
    exact run_no_set_address env events st h

/-- C8 witness: a concrete SET_ADDRESS(7) setup packet is ACKed locally
with no state change. -/
theorem set_address_local_only_witness :
    process_control envOK stUnconf [0, 5, 7, 0, 0, 0, 0, 0] =
      (stUnconf, [Action.ep0Read 0]) :=
  (set_address_local_only envOK stUnconf [0, 5, 7, 0, 0, 0, 0, 0] (by decide) (by decide)
    (by decide)).1

end UsbProxy
